import Mathlib

/-!
Shallow embedding of the player actor from src/src/game-objects/Player.ts.

The actor is modelled as a pure state record `PlayerState`; every method of
the `Player` class becomes a function `PlayerState → ... → PlayerState`.
External effects are recorded inside the state:
  * `events`    — timer events scheduled through `scene.time.addEvent`
                  (delay in milliseconds plus which callback will run);
  * `arrows`    — the projectiles created (`new Arrow(scene, this, orient)`),
                  each recorded by the firing direction; the index of an entry
                  is the projectile's identity;
  * `colliders` — collision handlers registered through
                  `scene.physics.add.collider(arrowGameObject, treant, ...)`,
                  recorded as (arrow index, treant id) pairs.
The scene registry entry `REGISTRY_KEYS.PLAYER.HP` is modelled as an
`Option Int` (`none` = the key is absent / JS `undefined`).  The wall clock
(`new Date().getTime()`) is passed in explicitly as an `Int` argument wherever
the source reads it.  `gameObject.destroy()` is modelled as `active := false`;
`heart.setAlpha(0)` as setting the heart's visibility flag to `false`.
-/

/-- Facing directions of the actor: the `'up' | 'down' | 'left' | 'right'` union type. -/
inductive Dir
  | up
  | down
  | left
  | right
deriving DecidableEq

/-- Callbacks that can be handed to `scene.time.addEvent` in Player.ts. -/
inductive Callback
  | readyToFire
  | endShoot
deriving DecidableEq

/-- One scheduled timer event: `scene.time.addEvent({delay, callback, callbackScope})`. -/
structure ScheduledEvent where
  delay : Nat
  cb : Callback
deriving DecidableEq

/-- The per-frame input snapshot handed to `Player.update(keyPressed)`. -/
structure KeyPressed where
  up : Bool
  down : Bool
  left : Bool
  right : Bool
  space : Bool
  shift : Bool
deriving DecidableEq

/-- Constant `const HIT_DELAY = 500`. -/
def HIT_DELAY : Int := 500

/-- Constant `const PLAYER_SPEED = 100`. -/
def PLAYER_SPEED : Int := 100

/-- Constant `const PLAYER_SHOOTING_TIME = 300`. -/
def PLAYER_SHOOTING_TIME : Nat := 300

/-- Constant `const PLAYER_RELOAD = 500`. -/
def PLAYER_RELOAD : Nat := 500

/-- Constant `const MAX_HP = 3`. -/
def MAX_HP : Int := 3

/-- The whole observable state of a `Player` object together with the pieces of
the scene it touches (registry hp entry, treant list) and the effect traces. -/
structure PlayerState where
  active : Bool
  velocityX : Int
  velocityY : Int
  flipX : Bool
  anim : String
  orientation : Dir
  lastTimeHit : Int
  isLoading : Bool
  isShooting : Bool
  tomb : Option (Int × Int)
  posX : Int
  posY : Int
  hearts : List Bool
  registryHp : Option Int
  treants : List Nat
  events : List ScheduledEvent
  arrows : List Dir
  colliders : List (Nat × Nat)
deriving DecidableEq

/-- String form of a direction, used in template literals of Player.ts. -/
def dirStr : Dir → String
  | Dir.up => "up"
  | Dir.down => "down"
  | Dir.left => "left"
  | Dir.right => "right"

/-- The animation key in `this.gameObject.play(\x7bplayer-move-...\x7d)`. -/
def moveAnimName (d : Dir) : String := "player-move-" ++ dirStr d

/-- The `animSwitch` flip entry of `punch`. -/
def punchFlip : Dir → Bool
  | Dir.left => true
  | _ => false

/-- The `animSwitch` anim entry of `punch`. -/
def punchAnimName : Dir → String
  | Dir.down => "player-attack-down"
  | Dir.up => "player-attack-up"
  | Dir.left => "player-attack-side"
  | Dir.right => "player-attack-side"

/-- The `animSwitch` flip entry of `beIdle`. -/
def idleFlip : Dir → Bool
  | Dir.left => true
  | _ => false

/-- The `animSwitch` anim entry of `beIdle`. -/
def idleAnimName : Dir → String
  | Dir.down => "player-idle-down"
  | Dir.up => "player-idle-up"
  | Dir.left => "player-idle-side"
  | Dir.right => "player-idle-side"

/-- The `animSwitch` anim entry of `shoot`. -/
def weaponAnimName : Dir → String
  | Dir.down => "player-attack-weapon-down"
  | Dir.up => "player-attack-weapon-up"
  | Dir.left => "player-attack-weapon-side"
  | Dir.right => "player-attack-weapon-side"

/-- Method `getHp`: `this.scene.registry.get(REGISTRY_KEYS.PLAYER.HP)`.
An absent key is JS `undefined`, on which Player.ts never does arithmetic in
any reachable state (the constructor seeds the key); the `getD 0` default is
therefore never observed by the theorems below, which carry the presence of
the key as a hypothesis. -/
def getHp (s : PlayerState) : Int := s.registryHp.getD 0

/-- Method `setHp`: `this.scene.registry.set(REGISTRY_KEYS.PLAYER.HP, newHp)`. -/
def setHp (s : PlayerState) (newHp : Int) : PlayerState := { s with registryHp := some newHp }

/-- Method `addHp`: reads the registry hp and stores `hp + hpToAdd`. -/
def addHp (s : PlayerState) (hpToAdd : Int) : PlayerState := setHp s (getHp s + hpToAdd)

/-- Method `updateHearts`: hides (`setAlpha(0)`) every filled heart whose index
is `>= this.getHp()`, leaving the others untouched. -/
def updateHearts (s : PlayerState) : PlayerState :=
  { s with hearts := s.hearts.mapIdx fun i v => if (i : Int) ≥ getHp s then false else v }

/-- Method `canGetHit`: `new Date().getTime() - this.lastTimeHit > HIT_DELAY`. -/
def canGetHit (now : Int) (s : PlayerState) : Bool := decide (now - s.lastTimeHit > HIT_DELAY)

/-- Method `loseHp`, with the current wall clock passed explicitly. -/
def loseHp (now : Int) (s : PlayerState) : PlayerState :=
  let s1 := addHp s (-1)
  let s2 := updateHearts s1
  let s3 := { s2 with lastTimeHit := now }
  if getHp s3 > 0 then s3
  else
    let s4 := if s3.tomb = none then { s3 with tomb := some (s3.posX, s3.posY) } else s3
    { s4 with active := false }

/-- Method `reload`: sets `isLoading` and schedules `readyToFire` after `PLAYER_RELOAD`. -/
def reload (s : PlayerState) : PlayerState :=
  { s with isLoading := true,
           events := s.events ++ [⟨PLAYER_RELOAD, Callback.readyToFire⟩] }

/-- The `readyToFire` timer callback. -/
def readyToFire (s : PlayerState) : PlayerState := { s with isLoading := false }

/-- The `endShoot` timer callback. -/
def endShoot (s : PlayerState) : PlayerState := { s with isShooting := false }

/-- Method `go(direction, shouldAnimate = true)`. -/
def go (s : PlayerState) (direction : Dir) (shouldAnimate : Bool) : PlayerState :=
  let sv :=
    match direction with
    | Dir.left => { s with velocityX := -PLAYER_SPEED }
    | Dir.right => { s with velocityX := PLAYER_SPEED }
    | Dir.up => { s with velocityY := -PLAYER_SPEED }
    | Dir.down => { s with velocityY := PLAYER_SPEED }
  if !shouldAnimate then sv
  else
    { sv with flipX := direction == Dir.left,
              orientation := direction,
              anim := moveAnimName direction }

/-- Method `handleHorizontalMovement`. -/
def handleHorizontalMovement (s : PlayerState) (k : KeyPressed) : PlayerState :=
  let isUpDownPressed := k.up || k.down
  if k.left then go s Dir.left !isUpDownPressed
  else if k.right then go s Dir.right !isUpDownPressed
  else s

/-- Method `handleVerticalMovement`. -/
def handleVerticalMovement (s : PlayerState) (k : KeyPressed) : PlayerState :=
  if k.up then go s Dir.up true
  else if k.down then go s Dir.down true
  else s

/-- Method `handleMovement`: skipped entirely while `isShooting`. -/
def handleMovement (s : PlayerState) (k : KeyPressed) : PlayerState :=
  if s.isShooting then s
  else handleVerticalMovement (handleHorizontalMovement s k) k

/-- Method `punch`: orientation-keyed flip and attack animation, no locks. -/
def punch (s : PlayerState) : PlayerState :=
  { s with flipX := punchFlip s.orientation, anim := punchAnimName s.orientation }

/-- Method `beIdle`: orientation-keyed flip and idle animation. -/
def beIdle (s : PlayerState) : PlayerState :=
  { s with flipX := idleFlip s.orientation, anim := idleAnimName s.orientation }

/-- Method `shoot`: sets `isShooting`, schedules `endShoot` after
`PLAYER_SHOOTING_TIME`, plays the weapon animation for the current facing and
creates one `Arrow` oriented by the current facing. -/
def shoot (s : PlayerState) : PlayerState :=
  { s with isShooting := true,
           events := s.events ++ [⟨PLAYER_SHOOTING_TIME, Callback.endShoot⟩],
           anim := weaponAnimName s.orientation,
           arrows := s.arrows ++ [s.orientation] }

/-- Method `handleShootKey`: on shift, rejected while `isLoading`; otherwise
reloads, shoots, and registers one collider between the new arrow (whose index
is the number of previously created arrows) and every treant of the scene. -/
def handleShootKey (s : PlayerState) (k : KeyPressed) : PlayerState :=
  if k.shift then
    if s.isLoading then s
    else
      let s1 := shoot (reload s)
      { s1 with colliders := s1.colliders ++ s1.treants.map fun t => (s.arrows.length, t) }
  else s

/-- The test `Object.values(keyPressed).filter(x => x).length === 0`. -/
def noKeyPressed (k : KeyPressed) : Bool :=
  !(k.up || k.down || k.left || k.right || k.space || k.shift)

/-- The call `this.gameObject.setVelocity(0)` at the top of `update`. -/
def resetVelocity (s : PlayerState) : PlayerState := { s with velocityX := 0, velocityY := 0 }

/-- The `if (keyPressed.space) this.punch()` step of `update`. -/
def punchPhase (s : PlayerState) (k : KeyPressed) : PlayerState :=
  if k.space then punch s else s

/-- The `if (noKeyPressed && !this.isLoading) this.beIdle()` step of `update`. -/
def idlePhase (s : PlayerState) (k : KeyPressed) : PlayerState :=
  if noKeyPressed k && !s.isLoading then beIdle s else s

/-- Everything `update` does before `handleShootKey`. -/
def movePhase (s : PlayerState) (k : KeyPressed) : PlayerState :=
  idlePhase (punchPhase (handleMovement (resetVelocity s) k) k) k

/-- Method `update(keyPressed)`: early return when the game object is inactive,
then velocity reset, movement, punch, idle fallback and the shoot key. -/
def update (s : PlayerState) (k : KeyPressed) : PlayerState :=
  if !s.active then s
  else handleShootKey (movePhase s k) k

/-- JS falsiness of the registry value in `if (!registryHp)`: `undefined` and
`0` are falsy, every other integer is truthy. -/
def registryFalsy : Option Int → Bool
  | none => true
  | some v => v == 0

/-- The `Player` constructor: seeds the registry hp with `MAX_HP` when the
stored value is falsy, spawns the sprite facing down at `(x, y)`, clears all
locks and creates one filled heart per current hit point (`initHearts`). -/
def construct (registry : Option Int) (treants : List Nat) (x y now : Int) : PlayerState :=
  let reg := if registryFalsy registry then some MAX_HP else registry
  { active := true
    velocityX := 0
    velocityY := 0
    flipX := false
    anim := "player-idle-down"
    orientation := Dir.down
    lastTimeHit := now
    isLoading := false
    isShooting := false
    tomb := none
    posX := x
    posY := y
    hearts := List.replicate (reg.getD 0).toNat true
    registryHp := reg
    treants := treants
    events := []
    arrows := []
    colliders := [] }

/-! Frame lemmas: the movement, punch, and idle steps never touch the locks,
the wall-clock and life state, the registry, the hearts or any effect trace. -/

/-- Projection onto everything the pre-shoot part of `update` leaves alone. -/
def framePart (s : PlayerState) :=
  (s.active, s.lastTimeHit, s.isLoading, s.isShooting, s.tomb, s.posX, s.posY,
   s.hearts, s.registryHp, s.treants, s.events, s.arrows, s.colliders)

theorem go_framePart (s : PlayerState) (d : Dir) (a : Bool) :
    framePart (go s d a) = framePart s := by
  cases d <;> cases a <;> rfl

theorem hhm_framePart (s : PlayerState) (k : KeyPressed) :
    framePart (handleHorizontalMovement s k) = framePart s := by
  unfold handleHorizontalMovement
  split
  · exact go_framePart ..
  · split
    · exact go_framePart ..
    · rfl

theorem hvm_framePart (s : PlayerState) (k : KeyPressed) :
    framePart (handleVerticalMovement s k) = framePart s := by
  unfold handleVerticalMovement
  split
  · exact go_framePart ..
  · split
    · exact go_framePart ..
    · rfl

theorem handleMovement_framePart (s : PlayerState) (k : KeyPressed) :
    framePart (handleMovement s k) = framePart s := by
  unfold handleMovement
  split
  · rfl
  · rw [hvm_framePart, hhm_framePart]

theorem punchPhase_framePart (s : PlayerState) (k : KeyPressed) :
    framePart (punchPhase s k) = framePart s := by
  unfold punchPhase
  split <;> rfl

theorem idlePhase_framePart (s : PlayerState) (k : KeyPressed) :
    framePart (idlePhase s k) = framePart s := by
  unfold idlePhase
  split <;> rfl

theorem movePhase_framePart (s : PlayerState) (k : KeyPressed) :
    framePart (movePhase s k) = framePart s := by
  unfold movePhase
  rw [idlePhase_framePart, punchPhase_framePart, handleMovement_framePart]
  rfl

/-- A concrete live player used to instantiate hypotheses: built by the
constructor over a registry already holding 2 hp and a scene with one treant. -/
def sBase : PlayerState := construct (some 2) [7] 4 5 0

/-- A concrete input snapshot holding only shift. -/
def kShift : KeyPressed := ⟨false, false, false, false, false, true⟩

/-- C1: on a live actor, shift with the reload lock clear fires: the reload
lock is set with a 500 ms clear scheduled, the movement lock is set with a
300 ms clear scheduled, the weapon animation for the current facing plays,
exactly one arrow oriented by the current facing is created, and one collider
is registered between that arrow and every known treant. -/
theorem update_shift_fires (s : PlayerState) (k : KeyPressed)
    (ha : s.active = true) (hl : s.isLoading = false) (hs : k.shift = true) :
    (update s k).isLoading = true ∧
    (update s k).isShooting = true ∧
    (update s k).events =
      s.events ++ [⟨PLAYER_RELOAD, Callback.readyToFire⟩,
                   ⟨PLAYER_SHOOTING_TIME, Callback.endShoot⟩] ∧
    (update s k).anim = weaponAnimName (update s k).orientation ∧
    (update s k).arrows = s.arrows ++ [(update s k).orientation] ∧
    (update s k).colliders = s.colliders ++ s.treants.map fun t => (s.arrows.length, t) := by
  have hf := movePhase_framePart s k
  simp only [framePart, Prod.mk.injEq] at hf
  obtain ⟨-, -, hfl, -, -, -, -, -, -, hft, hfe, hfa, hfc⟩ := hf
  have hu : update s k =
      handleShootKey (movePhase s k) k := by
    simp [update, ha]
  rw [hu]
  simp [handleShootKey, hs, hfl, hl, shoot, reload, hft, hfe, hfa, hfc]

/-- Witness for C1 at a concrete live player and a shift-only snapshot. -/
theorem update_shift_fires_witness :
    (update sBase kShift).isLoading = true ∧
    (update sBase kShift).isShooting = true ∧
    (update sBase kShift).events =
      sBase.events ++ [⟨PLAYER_RELOAD, Callback.readyToFire⟩,
                       ⟨PLAYER_SHOOTING_TIME, Callback.endShoot⟩] ∧
    (update sBase kShift).anim = weaponAnimName (update sBase kShift).orientation ∧
    (update sBase kShift).arrows = sBase.arrows ++ [(update sBase kShift).orientation] ∧
    (update sBase kShift).colliders =
      sBase.colliders ++ sBase.treants.map fun t => (sBase.arrows.length, t) :=
  update_shift_fires sBase kShift rfl rfl rfl

/-- C2: shift while the reload lock is active is a silent no-op: the shoot
path returns the state untouched, and a full `update` call on a live actor
reduces to its pre-shoot part alone (so no arrow, no scheduling, no
animation change and no mutation comes from the shoot path). -/
theorem update_shift_reloadLocked_noop (s : PlayerState) (k : KeyPressed)
    (hs : k.shift = true) (hl : s.isLoading = true) :
    handleShootKey s k = s ∧
    (s.active = true → update s k = movePhase s k) := by
  constructor
  · simp [handleShootKey, hs, hl]
  · intro ha
    have hf := movePhase_framePart s k
    simp only [framePart, Prod.mk.injEq] at hf
    obtain ⟨-, -, hfl, -⟩ := hf
    simp [update, ha, handleShootKey, hs, hfl, hl]

/-- A concrete player whose reload lock is active. -/
def sLoading : PlayerState := { sBase with isLoading := true }

/-- Witness for C2 at a concrete reloading player and a shift-only snapshot. -/
theorem update_shift_reloadLocked_noop_witness :
    handleShootKey sLoading kShift = sLoading ∧
    (sLoading.active = true → update sLoading kShift = movePhase sLoading kShift) :=
  update_shift_reloadLocked_noop sLoading kShift rfl rfl

/-- C9: `canGetHit` holds exactly when the time elapsed since the last hit
strictly exceeds the 500 ms invulnerability window. -/
theorem canGetHit_iff (now : Int) (s : PlayerState) :
    canGetHit now s = true ↔ now - s.lastTimeHit > 500 := by
  simp [canGetHit, HIT_DELAY]

/-- C10: `update` on an inactive game object is a complete no-op. -/
theorem update_inactive_noop (s : PlayerState) (k : KeyPressed)
    (ha : s.active = false) : update s k = s := by
  simp [update, ha]

/-- A concrete dead player (inactive game object). -/
def sDead : PlayerState := { sBase with active := false }

/-- Witness for C10 at a concrete inactive player. -/
theorem update_inactive_noop_witness : update sDead kShift = sDead :=
  update_inactive_noop sDead kShift rfl

/-- C3: `loseHp` decrements the stored hp by exactly one, stamps
`lastTimeHit` with the current time and refreshes the hearts; while hp stays
positive nothing else changes, and once hp reaches zero or less the sprite is
destroyed and a tomb is created at the current position only if none exists
yet (never a second one). -/
theorem loseHp_spec (s : PlayerState) (now h : Int) (hr : s.registryHp = some h) :
    getHp (loseHp now s) = h - 1 ∧
    (loseHp now s).lastTimeHit = now ∧
    (loseHp now s).hearts =
      s.hearts.mapIdx (fun i v => if (i : Int) ≥ h - 1 then false else v) ∧
    (h - 1 > 0 → (loseHp now s).active = s.active ∧ (loseHp now s).tomb = s.tomb) ∧
    (h - 1 ≤ 0 → (loseHp now s).active = false ∧
      (loseHp now s).tomb = if s.tomb = none then some (s.posX, s.posY) else s.tomb) := by
  by_cases hc : 1 < h
  · refine ⟨?_, ?_, ?_, fun hx => ?_, fun hx => absurd hx (by omega)⟩ <;>
      simp [loseHp, addHp, setHp, updateHearts, getHp, hr, hc, sub_eq_add_neg]
  · by_cases ht : s.tomb = none <;>
      refine ⟨?_, ?_, ?_, fun hx => absurd hx (by omega), fun hx => ?_⟩ <;>
      simp [loseHp, addHp, setHp, updateHearts, getHp, hr, hc, ht, sub_eq_add_neg]

/-- Witness for C3 at a concrete player holding 2 hp. -/
theorem loseHp_spec_witness :
    getHp (loseHp 9 sBase) = 1 ∧
    (loseHp 9 sBase).lastTimeHit = 9 ∧
    (loseHp 9 sBase).active = sBase.active ∧
    (loseHp 9 sBase).tomb = sBase.tomb := by
  obtain ⟨h1, h2, -, h4, -⟩ := loseHp_spec sBase 9 2 rfl
  exact ⟨h1, h2, (h4 (by decide)).1, (h4 (by decide)).2⟩

/-- The state after constructing a player over an empty registry and then
applying four damage hits through the public `loseHp` entry point. -/
def deadTrace : PlayerState :=
  loseHp 40 (loseHp 30 (loseHp 20 (loseHp 10 (construct none [] 0 0 0))))

/-- C4: the hit-point invariant `0 ≤ hp` is breakable through the public
operations: damage counts 3, 2, 1, 0 as specified, but a fourth `loseHp`
call (nothing in the code guards it) drives the stored hit points to -1. -/
theorem hp_invariant_breaks :
    getHp (construct none [] 0 0 0) = 3 ∧
    getHp (loseHp 10 (construct none [] 0 0 0)) = 2 ∧
    getHp (loseHp 20 (loseHp 10 (construct none [] 0 0 0))) = 1 ∧
    getHp (loseHp 30 (loseHp 20 (loseHp 10 (construct none [] 0 0 0)))) = 0 ∧
    getHp deadTrace = -1 ∧ ¬(0 ≤ getHp deadTrace) := by
  decide

/-- A concrete input snapshot holding the left and up keys together. -/
def kLeftUp : KeyPressed := ⟨true, false, true, false, false, false⟩

/-- Counterexample for C5: with left and up both held, velocity is applied on
both axes but the vertical axis drives the animation, the facing and the
flip, contradicting horizontal animation precedence. -/
theorem horizontal_precedence_cex :
    (update sBase kLeftUp).velocityX = -PLAYER_SPEED ∧
    (update sBase kLeftUp).velocityY = -PLAYER_SPEED ∧
    (update sBase kLeftUp).orientation = Dir.up ∧
    (update sBase kLeftUp).anim = moveAnimName Dir.up ∧
    (update sBase kLeftUp).orientation ≠ Dir.left ∧
    (update sBase kLeftUp).anim ≠ moveAnimName Dir.left := by
  decide

/-- C5 amended: with movement unlocked and both one vertical and one
horizontal key held (no action keys), velocity is applied on both axes and
the animation, facing and flip are attributed to the vertical axis: vertical
takes animation precedence over horizontal when both are pressed. -/
theorem diagonal_vertical_precedence (s : PlayerState) (k : KeyPressed)
    (ha : s.active = true) (hlock : s.isShooting = false)
    (hud : k.up = true ∨ k.down = true) (hlr : k.left = true ∨ k.right = true)
    (hsp : k.space = false) (hsh : k.shift = false) :
    (update s k).velocityX = (if k.left then -PLAYER_SPEED else PLAYER_SPEED) ∧
    (update s k).velocityY = (if k.up then -PLAYER_SPEED else PLAYER_SPEED) ∧
    (update s k).orientation = (if k.up then Dir.up else Dir.down) ∧
    (update s k).anim = moveAnimName (if k.up then Dir.up else Dir.down) ∧
    (update s k).flipX = false := by
  obtain ⟨ku, kd, kl, kr, ks, kss⟩ := k
  simp only at hud hlr hsp hsh
  subst hsp hsh
  cases ku <;> cases kd <;> cases kl <;> cases kr <;>
    simp_all [update, movePhase, idlePhase, punchPhase, handleMovement,
      handleHorizontalMovement, handleVerticalMovement, go, noKeyPressed,
      resetVelocity, handleShootKey, hlock]

/-- Witness for the amended C5 at a concrete player and a left-and-up snapshot. -/
theorem diagonal_vertical_precedence_witness :
    (update sBase kLeftUp).velocityX = (if kLeftUp.left then -PLAYER_SPEED else PLAYER_SPEED) ∧
    (update sBase kLeftUp).velocityY = (if kLeftUp.up then -PLAYER_SPEED else PLAYER_SPEED) ∧
    (update sBase kLeftUp).orientation = (if kLeftUp.up then Dir.up else Dir.down) ∧
    (update sBase kLeftUp).anim = moveAnimName (if kLeftUp.up then Dir.up else Dir.down) ∧
    (update sBase kLeftUp).flipX = false :=
  diagonal_vertical_precedence sBase kLeftUp rfl rfl (Or.inl rfl) (Or.inl rfl) rfl rfl

/-- Helper: the shoot key path never touches the hearts. -/
theorem handleShootKey_hearts (s : PlayerState) (k : KeyPressed) :
    (handleShootKey s k).hearts = s.hearts := by
  unfold handleShootKey shoot reload
  split
  · split <;> rfl
  · rfl

/-- Helper: a whole `update` call never touches the hearts. -/
theorem update_hearts (s : PlayerState) (k : KeyPressed) :
    (update s k).hearts = s.hearts := by
  unfold update
  split
  · rfl
  · rw [handleShootKey_hearts]
    have hf := movePhase_framePart s k
    simp only [framePart, Prod.mk.injEq] at hf
    exact hf.2.2.2.2.2.2.2.1

/-- C6: `updateHearts` hides exactly the filled hearts whose index is at
least the current hit points, leaves indices below the hit points unchanged,
and a hidden heart is never re-shown by any operation (`update`, `loseHp`). -/
theorem updateHearts_spec (s : PlayerState) (h : Int) (v : Bool) (i : Nat)
    (hr : s.registryHp = some h) (hv : s.hearts[i]? = some v) :
    (updateHearts s).hearts[i]? = some (if (i : Int) ≥ h then false else v) ∧
    (v = false → ∀ k : KeyPressed, (update s k).hearts[i]? = some false) ∧
    (v = false → ∀ now : Int, (loseHp now s).hearts[i]? = some false) := by
  refine ⟨?_, ?_, ?_⟩
  · simp [updateHearts, getHp, hr, hv]
  · intro hveq k
    subst hveq
    rw [update_hearts]
    exact hv
  · intro hveq now
    subst hveq
    by_cases hc : 1 < h <;> by_cases ht : s.tomb = none <;>
      simp [loseHp, addHp, setHp, updateHearts, getHp, hr, hc, ht, hv]

/-- Witness for C6 at a concrete player holding 1 hp whose heart 1 is hidden. -/
theorem updateHearts_spec_witness :
    (updateHearts (loseHp 9 sBase)).hearts[1]? = some false ∧
    (update (loseHp 9 sBase) kShift).hearts[1]? = some false ∧
    (loseHp 99 (loseHp 9 sBase)).hearts[1]? = some false := by
  obtain ⟨h1, h2, h3⟩ := updateHearts_spec (loseHp 9 sBase) 1 false 1 (by decide) (by decide)
  exact ⟨by simpa using h1, h2 rfl kShift, h3 rfl 99⟩

/-- Counterexample for C7: a registry already holding the (present) hit-point
value 0 is not left unchanged by construction: the JS falsiness test
`if (!registryHp)` re-seeds it to 3. -/
theorem construct_present_zero_cex :
    (construct (some 0) [] 0 0 0).registryHp = some 3 ∧
    (construct (some 0) [] 0 0 0).registryHp ≠ some 0 := by
  decide

/-- C7 amended: construction leaves a present nonzero hit-point value
unchanged, and seeds the registry with the maximum of 3 exactly when the
value is absent or zero (both are falsy in the source's test). -/
theorem construct_registry_seeding (r : Option Int) (ts : List Nat) (x y now : Int) :
    (∀ v : Int, r = some v → v ≠ 0 → (construct r ts x y now).registryHp = some v) ∧
    ((r = none ∨ r = some 0) → (construct r ts x y now).registryHp = some MAX_HP) := by
  constructor
  · intro v hrv hv0
    subst hrv
    simp [construct, registryFalsy, hv0]
  · rintro (h | h) <;> subst h <;> simp [construct, registryFalsy]

/-- Witness for the amended C7 at a present value 2 and at an absent value. -/
theorem construct_registry_seeding_witness :
    (construct (some 2) [] 0 0 0).registryHp = some 2 ∧
    (construct none [] 0 0 0).registryHp = some MAX_HP :=
  ⟨(construct_registry_seeding (some 2) [] 0 0 0).1 2 rfl (by decide),
   (construct_registry_seeding none [] 0 0 0).2 (Or.inl rfl)⟩

/-- C8: on a live actor with no key held, velocity is zero at the end of the
frame, and when no reload is in progress the idle animation of the current
facing is selected with the horizontal mirror exactly when facing left. -/
theorem update_noKeys_idle (s : PlayerState) (k : KeyPressed)
    (ha : s.active = true) (hk : noKeyPressed k = true) :
    (update s k).velocityX = 0 ∧ (update s k).velocityY = 0 ∧
    (s.isLoading = false →
      (update s k).anim = idleAnimName s.orientation ∧
      ((update s k).flipX = true ↔ s.orientation = Dir.left)) := by
  obtain ⟨ku, kd, kl, kr, ks, kss⟩ := k
  simp only [noKeyPressed, Bool.not_eq_true', Bool.or_eq_false_iff] at hk
  obtain ⟨⟨⟨⟨⟨h1, h2⟩, h3⟩, h4⟩, h5⟩, h6⟩ := hk
  subst h1 h2 h3 h4 h5 h6
  by_cases hld : s.isLoading <;> by_cases hsh : s.isShooting <;>
    cases ho : s.orientation <;>
    simp_all [update, movePhase, idlePhase, punchPhase, handleMovement,
      handleHorizontalMovement, handleVerticalMovement, handleShootKey,
      noKeyPressed, resetVelocity, beIdle, idleFlip, idleAnimName]

/-- A concrete input snapshot with no key held. -/
def kNone : KeyPressed := ⟨false, false, false, false, false, false⟩

/-- Witness for C8 at a concrete live player with no key held. -/
theorem update_noKeys_idle_witness :
    (update sBase kNone).velocityX = 0 ∧ (update sBase kNone).velocityY = 0 ∧
    (sBase.isLoading = false →
      (update sBase kNone).anim = idleAnimName sBase.orientation ∧
      ((update sBase kNone).flipX = true ↔ sBase.orientation = Dir.left)) :=
  update_noKeys_idle sBase kNone rfl rfl
